import Mathlib

/-!
Verification of the Layout QA Engine (post-render PDF layout gates).

The definitions below are shallow embeddings of the Python sources under
`new_pipeline/validate/` and `bookgen/src/validate/`.  Python floats are
modelled by exact rational arithmetic (`ℚ`); all the constants involved
(margins in points, thresholds such as 0.65) are exactly representable.
Each definition carries a comment naming the source function it embeds.
-/

namespace LayoutQA

/-- Layout configuration: `margin_top, margin_bottom, margin_inner,
margin_outer, col_gap`, in points (verify-column-balance.py lines 107-111). -/
structure LayoutConfig where
  marginTop : ℚ
  marginBottom : ℚ
  marginInner : ℚ
  marginOuter : ℚ
  colGap : ℚ
deriving DecidableEq

/-- Page geometry values computed per page: body rectangle and the two
column rectangles (verify-column-balance.py lines 164-184). -/
structure PageGeom where
  isLeftPage : Bool
  leftMargin : ℚ
  rightMargin : ℚ
  bodyX0 : ℚ
  bodyX1 : ℚ
  bodyY0 : ℚ
  bodyY1 : ℚ
  bodyW : ℚ
  bodyH : ℚ
  gap : ℚ
  colW : ℚ
  leftX0 : ℚ
  leftX1 : ℚ
  rightX0 : ℚ
  rightX1 : ℚ
deriving DecidableEq

/-- Page geometry model, translated from verify-column-balance.py
lines 164-184 (the identical block appears in verify-page-fill.py
lines 168-178 and verify-justify-gaps.py lines 122-139):
`is_left_page = (page_no % 2 == 0)`, mirrored margins, body rectangle
clamped to non-degenerate sizes, column gap clamped to half the body
width, and the two column rectangles. -/
def pageGeometry (pageNo : ℕ) (w h : ℚ) (cfg : LayoutConfig) : PageGeom :=
  let isLeft : Bool := pageNo % 2 = 0
  let leftMargin := if isLeft then cfg.marginOuter else cfg.marginInner
  let rightMargin := if isLeft then cfg.marginInner else cfg.marginOuter
  let bodyX0 := leftMargin
  let bodyX1 := max bodyX0 (w - rightMargin)
  let bodyY0 := cfg.marginTop
  let bodyY1 := max bodyY0 (h - cfg.marginBottom)
  let bodyW := max 1 (bodyX1 - bodyX0)
  let bodyH := max 1 (bodyY1 - bodyY0)
  let gap := max 0 (min cfg.colGap (bodyW * 0.5))
  let colW := max 1 ((bodyW - gap) / 2)
  ⟨isLeft, leftMargin, rightMargin, bodyX0, bodyX1, bodyY0, bodyY1, bodyW, bodyH,
    gap, colW, bodyX0, bodyX0 + colW, bodyX0 + colW + gap, bodyX1⟩

/-- Configuration of spec Example A: page 600×800pt, `top=bottom=40pt`,
`inner=30pt`, `outer=45pt`, `column_gap=20pt`. -/
def cfgExampleA : LayoutConfig := ⟨40, 40, 30, 45, 20⟩

/-- C1 counterexample: on page 3 (odd, hence a right page) the code uses
`right_margin = margin_outer = 45`, so `body_x1 = 600 - 45 = 555`, not the
570 stated in the claim (570 would need a right margin of 30). -/
theorem c1_counterexample :
    (pageGeometry 3 600 800 cfgExampleA).bodyX1 = 555 ∧ (555 : ℚ) ≠ 570 := by
  constructor
  · norm_num [pageGeometry, cfgExampleA, max_def, min_def]
  · norm_num

/-- C1 amended: for the Example A inputs with `page_number = 3` (odd ⇒ not
left ⇒ `left_margin = inner = 30`, `right_margin = outer = 45`) the Page
Geometry Model yields `body = [30, 40, 555, 760]`, column width
`(525 - 20) / 2 = 252.5`, `left = [30, 40, 282.5, 760]` and
`right = [302.5, 40, 555, 760]`. -/
theorem c1_amended :
    (pageGeometry 3 600 800 cfgExampleA).isLeftPage = false ∧
    (pageGeometry 3 600 800 cfgExampleA).bodyX0 = 30 ∧
    (pageGeometry 3 600 800 cfgExampleA).bodyY0 = 40 ∧
    (pageGeometry 3 600 800 cfgExampleA).bodyX1 = 555 ∧
    (pageGeometry 3 600 800 cfgExampleA).bodyY1 = 760 ∧
    (pageGeometry 3 600 800 cfgExampleA).colW = 505 / 2 ∧
    (pageGeometry 3 600 800 cfgExampleA).leftX0 = 30 ∧
    (pageGeometry 3 600 800 cfgExampleA).leftX1 = 565 / 2 ∧
    (pageGeometry 3 600 800 cfgExampleA).rightX0 = 605 / 2 ∧
    (pageGeometry 3 600 800 cfgExampleA).rightX1 = 555 := by
  refine ⟨?_, ?_, ?_, ?_, ?_, ?_, ?_, ?_, ?_, ?_⟩ <;>
    norm_num [pageGeometry, cfgExampleA, max_def, min_def]

/-- C2: for every page number and configuration, the model marks exactly
the even pages as left pages, uses `margin_outer` on the spine-far side of
left (even) pages and `margin_inner` there on right (odd) pages, and
mirrors them on the other side. -/
theorem c2_margin_mirroring (n : ℕ) (w h : ℚ) (cfg : LayoutConfig) :
    ((pageGeometry n w h cfg).isLeftPage = true ↔ Even n) ∧
    (pageGeometry n w h cfg).leftMargin =
      (if Even n then cfg.marginOuter else cfg.marginInner) ∧
    (pageGeometry n w h cfg).rightMargin =
      (if Even n then cfg.marginInner else cfg.marginOuter) := by
  have hev : (n % 2 = 0) ↔ Even n := Nat.even_iff.symm
  refine ⟨?_, ?_, ?_⟩
  · simp only [pageGeometry, decide_eq_true_eq]
    exact hev
  · simp only [pageGeometry]
    by_cases h : n % 2 = 0
    · simp [h, hev.mp h]
    · have hne : ¬ Even n := fun he => h (hev.mpr he)
      simp [h, hne]
  · simp only [pageGeometry]
    by_cases h : n % 2 = 0
    · simp [h, hev.mp h]
    · have hne : ¬ Even n := fun he => h (hev.mpr he)
      simp [h, hne]

/-! ### Coverage Engine: `union_len` (verify-column-balance.py lines 223-237) -/

/-- Lexicographic comparison on `(y0, y1)` pairs, the order used by Python's
`list.sort()` on 2-tuples in `union_len`. -/
def lexLe (p q : ℚ × ℚ) : Bool :=
  decide (p.1 < q.1 ∨ (p.1 = q.1 ∧ p.2 ≤ q.2))

/-- Propositional form of `lexLe`. -/
def lexR (p q : ℚ × ℚ) : Prop := lexLe p q = true

theorem lexLe_trans (a b c : ℚ × ℚ) (hab : lexLe a b = true) (hbc : lexLe b c = true) :
    lexLe a c = true := by
  simp only [lexLe, decide_eq_true_eq] at *
  rcases hab with h1 | ⟨h1, h2⟩ <;> rcases hbc with h3 | ⟨h3, h4⟩
  · exact Or.inl (h1.trans h3)
  · exact Or.inl (h3 ▸ h1)
  · exact Or.inl (h1 ▸ h3)
  · exact Or.inr ⟨h1.trans h3, h2.trans h4⟩

theorem lexLe_total (a b : ℚ × ℚ) : (lexLe a b || lexLe b a) = true := by
  simp only [lexLe, Bool.or_eq_true, decide_eq_true_eq]
  rcases lt_trichotomy a.1 b.1 with h | h | h
  · exact Or.inl (Or.inl h)
  · rcases le_total a.2 b.2 with h2 | h2
    · exact Or.inl (Or.inr ⟨h, h2⟩)
    · exact Or.inr (Or.inr ⟨h.symm, h2⟩)
  · exact Or.inr (Or.inl h)

instance : IsAntisymm (ℚ × ℚ) lexR := by
  constructor
  intro a b hab hba
  simp only [lexR, lexLe, decide_eq_true_eq] at hab hba
  rcases hab with h1 | ⟨h1, h2⟩ <;> rcases hba with h3 | ⟨h3, h4⟩ <;>
    first
      | exact absurd h1 (not_lt.mpr (le_of_lt h3))
      | exact absurd h3 (not_lt.mpr (le_of_eq h1))
      | exact absurd h1 (not_lt.mpr (le_of_eq h3))
      | exact Prod.ext h1 (le_antisymm h2 h4)

/-- Single left-to-right merge pass over the tail of the sorted interval
list, carrying the current merged interval `(curA, curB)`: the loop body of
`union_len` (verify-column-balance.py lines 229-237). -/
def mergeGo : ℚ → ℚ → List (ℚ × ℚ) → ℚ
  | curA, curB, [] => curB - curA
  | curA, curB, (a, b) :: rest =>
    if a ≤ curB then mergeGo curA (max curB b) rest
    else (curB - curA) + mergeGo a b rest

/-- Total union length of an already-sorted interval list. -/
def unionSorted : List (ℚ × ℚ) → ℚ
  | [] => 0
  | (a, b) :: rest => mergeGo a b rest

/-- Coverage Engine core `union_len` (verify-column-balance.py lines
223-237): drop degenerate intervals, sort lexicographically, merge
overlapping intervals in one pass and sum the merged lengths. -/
def union_len (intervals : List (ℚ × ℚ)) : ℚ :=
  unionSorted ((intervals.filter fun p => decide (p.2 > p.1)).mergeSort lexLe)

/-- Coverage ratio with the Python truthiness guard and the final clamp to
`[0, 1]` (verify-column-balance.py lines 239-242). -/
def covFrac (intervals : List (ℚ × ℚ)) (bodyH : ℚ) : ℚ :=
  let c := if bodyH ≠ 0 then union_len intervals / bodyH else 1
  max 0 (min 1 c)

theorem mergeSort_eq_of_perm {l1 l2 : List (ℚ × ℚ)} (h : l1.Perm l2) :
    l1.mergeSort lexLe = l2.mergeSort lexLe := by
  apply List.eq_of_perm_of_sorted (r := lexR)
  · exact (List.mergeSort_perm l1 lexLe).trans (h.trans (List.mergeSort_perm l2 lexLe).symm)
  · exact List.sorted_mergeSort lexLe_trans lexLe_total l1
  · exact List.sorted_mergeSort lexLe_trans lexLe_total l2

theorem union_len_perm {l1 l2 : List (ℚ × ℚ)} (h : l1.Perm l2) :
    union_len l1 = union_len l2 := by
  unfold union_len
  rw [mergeSort_eq_of_perm (h.filter _)]

theorem mergeGo_dup (a b : ℚ) (hab : a < b) (l2 : List (ℚ × ℚ)) :
    ∀ (l1 : List (ℚ × ℚ)) (ca cb : ℚ),
      mergeGo ca cb (l1 ++ (a, b) :: (a, b) :: l2) = mergeGo ca cb (l1 ++ (a, b) :: l2) := by
  intro l1
  induction l1 with
  | nil =>
    intro ca cb
    simp only [List.nil_append, mergeGo]
    by_cases h1 : a ≤ cb
    · rw [if_pos h1, if_pos h1]
      show mergeGo ca (max cb b) ((a, b) :: l2) = mergeGo ca (max cb b) l2
      have h2 : a ≤ max cb b := h1.trans (le_max_left cb b)
      simp only [mergeGo, if_pos h2, max_assoc, max_self]
    · rw [if_neg h1, if_neg h1]
      show (cb - ca) + mergeGo a b ((a, b) :: l2) = (cb - ca) + mergeGo a b l2
      simp only [mergeGo, if_pos (le_of_lt hab), max_self]
  | cons y l1 ih =>
    intro ca cb
    obtain ⟨c, d⟩ := y
    simp only [List.cons_append, mergeGo, List.append_eq]
    by_cases h1 : c ≤ cb
    · rw [if_pos h1, if_pos h1, ih]
    · rw [if_neg h1, if_neg h1, ih]

theorem unionSorted_dup (x : ℚ × ℚ) (hx : x.1 < x.2) (l1 l2 : List (ℚ × ℚ)) :
    unionSorted (l1 ++ x :: x :: l2) = unionSorted (l1 ++ x :: l2) := by
  obtain ⟨a, b⟩ := x
  cases l1 with
  | nil =>
    simp only [List.nil_append, unionSorted]
    simp only [mergeGo, if_pos (le_of_lt hx), max_self]
  | cons y l1 =>
    obtain ⟨c, d⟩ := y
    simp only [List.cons_append, unionSorted]
    exact mergeGo_dup a b hx l2 l1 c d

theorem lexR_refl (x : ℚ × ℚ) : lexR x x := by
  simp [lexR, lexLe]

theorem mergeSort_cons_mem (x : ℚ × ℚ) (m : List (ℚ × ℚ)) (hx : x ∈ m) :
    ∃ l1 l2, m.mergeSort lexLe = l1 ++ x :: l2 ∧
      (x :: m).mergeSort lexLe = l1 ++ x :: x :: l2 := by
  have hs : List.Sorted lexR (m.mergeSort lexLe) :=
    List.sorted_mergeSort lexLe_trans lexLe_total m
  have hxs : x ∈ m.mergeSort lexLe := (List.mergeSort_perm m lexLe).mem_iff.mpr hx
  obtain ⟨l1, l2, heq⟩ := List.append_of_mem hxs
  refine ⟨l1, l2, heq, ?_⟩
  have hs2 : List.Sorted lexR (l1 ++ x :: l2) := heq ▸ hs
  apply List.eq_of_perm_of_sorted (r := lexR)
  · have hm : m.Perm (l1 ++ x :: l2) :=
      (List.mergeSort_perm m lexLe).symm.trans (heq ▸ List.Perm.refl _)
    exact (List.mergeSort_perm _ _).trans ((hm.cons x).trans List.perm_middle.symm)
  · exact List.sorted_mergeSort lexLe_trans lexLe_total _
  · rw [List.Sorted, List.pairwise_append] at hs2 ⊢
    obtain ⟨h1, h2, h3⟩ := hs2
    rw [List.pairwise_cons] at h2
    obtain ⟨h2a, h2b⟩ := h2
    refine ⟨h1, ?_, ?_⟩
    · rw [List.pairwise_cons]
      refine ⟨?_, ?_⟩
      · intro b hb
        rcases List.mem_cons.mp hb with hb | hb
        · exact hb ▸ lexR_refl x
        · exact h2a b hb
      · rw [List.pairwise_cons]
        exact ⟨h2a, h2b⟩
    · intro p hp q hq
      rcases List.mem_cons.mp hq with hq | hq
      · exact hq ▸ h3 p hp x (List.mem_cons_self x l2)
      · exact h3 p hp q hq

theorem union_len_dup (x : ℚ × ℚ) (l : List (ℚ × ℚ)) (hmem : x ∈ l) :
    union_len (x :: l) = union_len l := by
  by_cases hx : x.1 < x.2
  · unfold union_len
    have hxf : x ∈ l.filter fun p => decide (p.2 > p.1) :=
      List.mem_filter.mpr ⟨hmem, by simpa using hx⟩
    have hcons : (x :: l).filter (fun p => decide (p.2 > p.1)) =
        x :: l.filter fun p => decide (p.2 > p.1) := by
      simp [List.filter_cons, hx]
    rw [hcons]
    obtain ⟨l1, l2, heq, heq2⟩ := mergeSort_cons_mem x _ hxf
    rw [heq, heq2]
    exact unionSorted_dup x hx l1 l2
  · unfold union_len
    have hcons : (x :: l).filter (fun p => decide (p.2 > p.1)) =
        l.filter fun p => decide (p.2 > p.1) := by
      simp [List.filter_cons, hx]
    rw [hcons]

/-- C5: the Coverage Engine union length is invariant under reordering of
the interval list and under insertion of a duplicate of an interval already
present; degenerate intervals with `y1 ≤ y0` contribute nothing; the empty
interval list has union length 0 and coverage ratio 0, never 1. -/
theorem c5_coverage_engine :
    (∀ l1 l2 : List (ℚ × ℚ), l1.Perm l2 → union_len l1 = union_len l2) ∧
    (∀ (x : ℚ × ℚ) (l : List (ℚ × ℚ)), x ∈ l → union_len (x :: l) = union_len l) ∧
    (∀ (a b : ℚ) (l : List (ℚ × ℚ)), b ≤ a → union_len ((a, b) :: l) = union_len l) ∧
    union_len ([] : List (ℚ × ℚ)) = 0 ∧
    (∀ bodyH : ℚ, bodyH ≠ 0 → covFrac [] bodyH = 0 ∧ covFrac [] bodyH ≠ 1) := by
  have hnil : union_len ([] : List (ℚ × ℚ)) = 0 := by
    simp [union_len, unionSorted]
  refine ⟨fun l1 l2 h => union_len_perm h, union_len_dup, ?_, hnil, ?_⟩
  · intro a b l hba
    unfold union_len
    have hcons : ((a, b) :: l).filter (fun p => decide (p.2 > p.1)) =
        l.filter fun p => decide (p.2 > p.1) := by
      simp [List.filter_cons, not_lt.mpr hba]
    rw [hcons]
  · intro bodyH hH
    have h0 : covFrac [] bodyH = 0 := by
      simp [covFrac, hH, hnil]
    exact ⟨h0, by rw [h0]; norm_num⟩

/-- C5 witness: the invariances evaluated at concrete interval lists. -/
theorem c5_coverage_engine_witness :
    union_len [(0, 2), (1, 3)] = union_len [(1, 3), (0, 2)] ∧
    union_len [(0, 2), (0, 2), (1, 3)] = union_len [(0, 2), (1, 3)] ∧
    union_len [(5, 3), (0, 2)] = union_len [(0, 2)] ∧
    covFrac [] 720 = 0 := by
  refine ⟨?_, ?_, ?_, ?_⟩
  · exact c5_coverage_engine.1 _ _ (List.Perm.swap _ _ _)
  · exact c5_coverage_engine.2.1 (0, 2) [(0, 2), (1, 3)] (by simp)
  · exact c5_coverage_engine.2.2.1 5 3 [(0, 2)] (by norm_num)
  · exact (c5_coverage_engine.2.2.2.2 720 (by norm_num)).1

/-! ### Column-Balance gate decision (verify-column-balance.py lines 262-290) -/

/-- Per-page measured quantities consumed by the Column-Balance decision:
vertical coverages, text-block counts and image presence per column. -/
structure ColMeasures where
  leftCov : ℚ
  rightCov : ℚ
  leftBlocks : ℕ
  rightBlocks : ℕ
  leftHasImage : Bool
  rightHasImage : Bool

/-- Column-Balance per-page violation decision (verify-column-balance.py
lines 262-280): pick the fuller side by `left_cov >= right_cov`, then flag
iff the fuller coverage, fuller block count, sparser coverage, coverage
difference and no-image-in-sparse-column conditions all hold. -/
def columnBalanceViolation (m : ColMeasures)
    (minFullCov maxSparseCov minCovDiff : ℚ) (minFullBlocks : ℕ) : Bool :=
  let fullCov := if m.leftCov ≥ m.rightCov then m.leftCov else m.rightCov
  let sparseCov := if m.leftCov ≥ m.rightCov then m.rightCov else m.leftCov
  let fullBlocks := if m.leftCov ≥ m.rightCov then m.leftBlocks else m.rightBlocks
  let sparseHasImage := if m.leftCov ≥ m.rightCov then m.rightHasImage else m.leftHasImage
  decide (fullCov ≥ minFullCov ∧ fullBlocks ≥ minFullBlocks ∧
    sparseCov ≤ maxSparseCov ∧ fullCov - sparseCov ≥ minCovDiff) && !sparseHasImage

/-- Helper: the Column-Balance decision at default thresholds, rephrased
through `max`/`min` of the two coverages. -/
theorem columnBalance_iff (m : ColMeasures) :
    columnBalanceViolation m 0.65 0.40 0.25 4 = true ↔
      (max m.leftCov m.rightCov ≥ 0.65 ∧
       (if m.leftCov ≥ m.rightCov then m.leftBlocks else m.rightBlocks) ≥ 4 ∧
       min m.leftCov m.rightCov ≤ 0.40 ∧
       max m.leftCov m.rightCov - min m.leftCov m.rightCov ≥ 0.25 ∧
       (if m.leftCov ≥ m.rightCov then m.rightHasImage else m.leftHasImage) = false) := by
  unfold columnBalanceViolation
  by_cases hlr : m.leftCov ≥ m.rightCov
  · have hmax : max m.leftCov m.rightCov = m.leftCov := max_eq_left hlr
    have hmin : min m.leftCov m.rightCov = m.rightCov := min_eq_right hlr
    simp [hlr, hmax, hmin, Bool.and_eq_true, decide_eq_true_eq, and_assoc]
  · have hlt : m.leftCov < m.rightCov := not_le.mp hlr
    have hmax : max m.leftCov m.rightCov = m.rightCov := max_eq_right (le_of_lt hlt)
    have hmin : min m.leftCov m.rightCov = m.leftCov := min_eq_left (le_of_lt hlt)
    simp [hlr, hmax, hmin, Bool.and_eq_true, decide_eq_true_eq, and_assoc]

/-- C4: at the default thresholds, the Column-Balance gate flags a page iff
the five conditions hold (fuller coverage ≥ 0.65, fuller block count ≥ 4,
sparser coverage ≤ 0.40, difference ≥ 0.25, no image in the sparser
column); consequently a page whose two columns both have coverage within
0.70 ± 0.05 and at least 4 blocks each is never flagged. -/
theorem c4_column_balance :
    (∀ m : ColMeasures,
      columnBalanceViolation m 0.65 0.40 0.25 4 = true ↔
        (max m.leftCov m.rightCov ≥ 0.65 ∧
         (if m.leftCov ≥ m.rightCov then m.leftBlocks else m.rightBlocks) ≥ 4 ∧
         min m.leftCov m.rightCov ≤ 0.40 ∧
         max m.leftCov m.rightCov - min m.leftCov m.rightCov ≥ 0.25 ∧
         (if m.leftCov ≥ m.rightCov then m.rightHasImage else m.leftHasImage) = false)) ∧
    (∀ m : ColMeasures, 0.65 ≤ m.leftCov → m.leftCov ≤ 0.75 →
      0.65 ≤ m.rightCov → m.rightCov ≤ 0.75 →
      4 ≤ m.leftBlocks → 4 ≤ m.rightBlocks →
      columnBalanceViolation m 0.65 0.40 0.25 4 = false) := by
  constructor
  · exact columnBalance_iff
  · intro m h1 h2 h3 h4 _ _
    rw [Bool.eq_false_iff]
    intro hv
    rw [columnBalance_iff] at hv
    obtain ⟨-, -, hc, -, -⟩ := hv
    have hge : (0.65 : ℚ) ≤ min m.leftCov m.rightCov := le_min h1 h3
    linarith

/-- C4 witness: a balanced page with both coverages 0.70 and 6 blocks per
column is not flagged, and Example C's measures are flagged. -/
theorem c4_column_balance_witness :
    columnBalanceViolation ⟨0.70, 0.70, 6, 6, false, false⟩ 0.65 0.40 0.25 4 = false ∧
    columnBalanceViolation ⟨0.72, 0.12, 6, 1, false, false⟩ 0.65 0.40 0.25 4 = true := by
  constructor
  · exact c4_column_balance.2 ⟨0.70, 0.70, 6, 6, false, false⟩ (by norm_num) (by norm_num)
      (by norm_num) (by norm_num) (by norm_num) (by norm_num)
  · rw [c4_column_balance.1 ⟨0.72, 0.12, 6, 1, false, false⟩]
    refine ⟨?_, ?_, ?_, ?_, ?_⟩ <;> norm_num [max_def, min_def]

/-! ### Page-Fill gate (verify-page-fill.py lines 180-226) -/

/-- Text block row of PyMuPDF `get_text("blocks")`: bounding box and raw text. -/
structure TextBlock where
  x0 : ℚ
  y0 : ℚ
  x1 : ℚ
  y1 : ℚ
  txt : String

/-- Image rectangle of `page.get_image_rects`. -/
structure ImgRect where
  x0 : ℚ
  y0 : ℚ
  x1 : ℚ
  y1 : ℚ

/-- Body intersection test `in_body` (verify-page-fill.py lines 180-185):
reject items entirely above or below the body span, then require the
horizontal center inside the body x-range. -/
def inBody (g : PageGeom) (x0 y0 x1 y1 : ℚ) : Bool :=
  if y1 ≤ g.bodyY0 ∨ y0 ≥ g.bodyY1 then false
  else decide (g.bodyX0 ≤ (x0 + x1) / 2 ∧ (x0 + x1) / 2 ≤ g.bodyX1)

/-- Text-block filter of the Page-Fill loop (verify-page-fill.py lines
191-203): non-empty text after stripping, pixel area at least 200, and
intersecting the body. -/
def blockQualifies (g : PageGeom) (b : TextBlock) : Bool :=
  decide (b.txt.trim ≠ "") &&
  decide (max 0 (b.x1 - b.x0) * max 0 (b.y1 - b.y0) ≥ 200) &&
  inBody g b.x0 b.y0 b.x1 b.y1

/-- Greatest bottom edge among qualifying blocks and in-body images,
clipped to the body bottom, starting from `body_y0` (verify-page-fill.py
lines 189-213). -/
def pageFillYMax (g : PageGeom) (blocks : List TextBlock) (imgs : List ImgRect) : ℚ :=
  let yText := blocks.foldl
    (fun acc b => if blockQualifies g b then max acc (min b.y1 g.bodyY1) else acc) g.bodyY0
  imgs.foldl
    (fun acc r => if inBody g r.x0 r.y0 r.x1 r.y1 then max acc (min r.y1 g.bodyY1) else acc) yText

/-- Used-height ratio (verify-page-fill.py line 215), with the Python
truthiness guard on `body_h`. -/
def usedFrac (g : PageGeom) (blocks : List TextBlock) (imgs : List ImgRect) : ℚ :=
  if g.bodyH ≠ 0 then (pageFillYMax g blocks imgs - g.bodyY0) / g.bodyH else 1

/-- Page-Fill violation decision (verify-page-fill.py line 217). -/
def pageFillViolation (g : PageGeom) (blocks : List TextBlock) (imgs : List ImgRect)
    (minUsed : ℚ) : Bool :=
  decide (usedFrac g blocks imgs < minUsed)

theorem pageGeometry_bodyH_ge_one (n : ℕ) (w h : ℚ) (cfg : LayoutConfig) :
    1 ≤ (pageGeometry n w h cfg).bodyH := by
  simp only [pageGeometry]
  exact le_max_left _ _

theorem foldl_skip_all {α : Type} (p : α → Bool) (upd : ℚ → α → ℚ) :
    ∀ (l : List α) (acc : ℚ), (∀ b ∈ l, p b = false) →
      l.foldl (fun a x => if p x then upd a x else a) acc = acc := by
  intro l
  induction l with
  | nil => intro acc _; rfl
  | cons x xs ih =>
    intro acc hall
    rw [List.foldl_cons, if_neg (by rw [hall x (List.mem_cons_self x xs)]; simp)]
    exact ih acc fun b hb => hall b (List.mem_cons_of_mem x hb)

/-- C6: on a page with zero qualifying content items (no text block that is
non-empty after trimming, of area at least the noise threshold and
intersecting the body, and no image rectangle intersecting the body), the
Page-Fill gate computes `used_ratio = 0` and flags the page for every
`min_used` in `(0, 1]`. -/
theorem c6_page_fill_empty (n : ℕ) (w h : ℚ) (cfg : LayoutConfig)
    (blocks : List TextBlock) (imgs : List ImgRect)
    (hb : ∀ b ∈ blocks, blockQualifies (pageGeometry n w h cfg) b = false)
    (hi : ∀ r ∈ imgs, inBody (pageGeometry n w h cfg) r.x0 r.y0 r.x1 r.y1 = false) :
    usedFrac (pageGeometry n w h cfg) blocks imgs = 0 ∧
    (∀ minUsed : ℚ, 0 < minUsed → minUsed ≤ 1 →
      pageFillViolation (pageGeometry n w h cfg) blocks imgs minUsed = true) := by
  have hH : (1 : ℚ) ≤ (pageGeometry n w h cfg).bodyH := pageGeometry_bodyH_ge_one n w h cfg
  have hymax : pageFillYMax (pageGeometry n w h cfg) blocks imgs =
      (pageGeometry n w h cfg).bodyY0 := by
    unfold pageFillYMax
    rw [foldl_skip_all _ _ blocks _ hb]
    exact foldl_skip_all _ _ imgs _ hi
  have h0 : usedFrac (pageGeometry n w h cfg) blocks imgs = 0 := by
    unfold usedFrac
    rw [if_pos (by linarith), hymax]
    simp
  refine ⟨h0, fun minUsed hpos _ => ?_⟩
  unfold pageFillViolation
  rw [h0]
  exact decide_eq_true hpos

/-- C6 witness: an empty page of Example A geometry has used ratio 0 and is
flagged at the default threshold 0.60. -/
theorem c6_page_fill_empty_witness :
    usedFrac (pageGeometry 3 600 800 cfgExampleA) [] [] = 0 ∧
    pageFillViolation (pageGeometry 3 600 800 cfgExampleA) [] [] 0.60 = true := by
  have h := c6_page_fill_empty 3 600 800 cfgExampleA [] []
    (by intro b hb; cases hb) (by intro r hr; cases hr)
  exact ⟨h.1, h.2 0.60 (by norm_num) (by norm_num)⟩

/-! ### Bullet-Orphan-Split gate (verify-bullet-orphan-split.py lines 165-204) -/

/-- Python `max` over a list of rationals (0 for the empty list, which the
source never queries). -/
def listMax : List ℚ → ℚ
  | [] => 0
  | x :: xs => xs.foldl max x

/-- Python `min` over a list of rationals (0 for the empty list, which the
source never queries). -/
def listMin : List ℚ → ℚ
  | [] => 0
  | x :: xs => xs.foldl min x

/-- Bullet-Orphan-Split per-page decision (verify-bullet-orphan-split.py
lines 165-204), taking the vertical centers of bullet lines per column:
skip when a column has no bullets; require one column to hold exactly one
bullet and the other at least three; then flag iff the lone bullet sits at
normalized position ≥ 0.65 and the other column's first bullet at ≤ 0.40. -/
def bulletOrphanViolation (leftYs rightYs : List ℚ) (bodyY0 bodyH : ℚ) : Bool :=
  if leftYs.length = 0 ∨ rightYs.length = 0 then false
  else if ¬ (min leftYs.length rightYs.length = 1 ∧ 3 ≤ max leftYs.length rightYs.length) then
    false
  else if leftYs.length = 1 then
    decide ((listMax leftYs - bodyY0) / bodyH ≥ 0.65 ∧
      (listMin rightYs - bodyY0) / bodyH ≤ 0.40)
  else
    decide ((listMax rightYs - bodyY0) / bodyH ≥ 0.65 ∧
      (listMin leftYs - bodyY0) / bodyH ≤ 0.40)

/-- C7: the Bullet-Orphan-Split gate flags a page iff one column has
exactly one bullet line and the other at least three, with the lone
bullet's normalized position ≥ 0.65 and the other column's topmost bullet
at ≤ 0.40; in particular a left column with one bullet at normalized y 0.80
and a right column with four bullets whose first sits at 0.10 is flagged. -/
theorem c7_bullet_orphan :
    (∀ (ls rs : List ℚ) (y0 bh : ℚ),
      bulletOrphanViolation ls rs y0 bh = true ↔
        ((ls.length = 1 ∧ 3 ≤ rs.length ∧
          (listMax ls - y0) / bh ≥ 0.65 ∧ (listMin rs - y0) / bh ≤ 0.40) ∨
         (rs.length = 1 ∧ 3 ≤ ls.length ∧
          (listMax rs - y0) / bh ≥ 0.65 ∧ (listMin ls - y0) / bh ≤ 0.40))) ∧
    bulletOrphanViolation [616] [112, 200, 300, 400] 40 720 = true := by
  constructor
  · intro ls rs y0 bh
    unfold bulletOrphanViolation
    by_cases h1 : ls.length = 0 ∨ rs.length = 0
    · rw [if_pos h1]
      simp only [Bool.false_eq_true, false_iff]
      rintro (⟨hl, hr, -, -⟩ | ⟨hr, hl, -, -⟩) <;> omega
    · rw [if_neg h1]
      by_cases h2 : min ls.length rs.length = 1 ∧ 3 ≤ max ls.length rs.length
      · rw [if_neg (not_not_intro h2)]
        by_cases h3 : ls.length = 1
        · have hrs : 3 ≤ rs.length := by omega
          rw [if_pos h3, decide_eq_true_iff]
          constructor
          · rintro ⟨ha, hb⟩
            exact Or.inl ⟨h3, hrs, ha, hb⟩
          · rintro (⟨-, -, ha, hb⟩ | ⟨hr1, hl3, -, -⟩)
            · exact ⟨ha, hb⟩
            · omega
        · have hls : rs.length = 1 ∧ 3 ≤ ls.length := by omega
          rw [if_neg h3, decide_eq_true_iff]
          constructor
          · rintro ⟨ha, hb⟩
            exact Or.inr ⟨hls.1, hls.2, ha, hb⟩
          · rintro (⟨hl1, -, -, -⟩ | ⟨-, -, ha, hb⟩)
            · exact absurd hl1 h3
            · exact ⟨ha, hb⟩
      · rw [if_pos h2]
        simp only [Bool.false_eq_true, false_iff]
        rintro (⟨hl, hr, -, -⟩ | ⟨hr, hl, -, -⟩) <;> exact h2 (by omega)
  · norm_num [bulletOrphanViolation, listMax, listMin, List.foldl_cons, List.foldl_nil,
      min_def, max_def]

/-! ### Heading-Hyphenation gate (verify-no-heading-hyphenation.py lines 70-139) -/

/-- ASCII model of Python's regex whitespace set. -/
def isPySpace (c : Char) : Bool :=
  c = ' ' ∨ c = '\t' ∨ c = '\n' ∨ c = '\r' ∨ c = '\x0b' ∨ c = '\x0c'

/-- The character set `[A-Za-zÀ-ÖØ-öø-ÿ]` of the gate's letter test. -/
def isLatinLetter (c : Char) : Bool :=
  ('A' ≤ c ∧ c ≤ 'Z') ∨ ('a' ≤ c ∧ c ≤ 'z') ∨
  ('\xC0' ≤ c ∧ c ≤ '\xD6') ∨ ('\xD8' ≤ c ∧ c ≤ '\xF6') ∨ ('\xF8' ≤ c ∧ c ≤ '\xFF')

/-- Python regex search for `-\s*$`: the text, after discarding trailing
whitespace, ends with a hyphen. -/
def endsWithHyphen (t : String) : Bool :=
  match t.toList.reverse.dropWhile isPySpace with
  | [] => false
  | c :: _ => c = '-'

/-- Python regex search for `^\s*[A-Za-zÀ-ÖØ-öø-ÿ]`: the text, after
leading whitespace, begins with a letter. -/
def startsLetter (t : String) : Bool :=
  match t.toList.dropWhile isPySpace with
  | [] => false
  | c :: _ => isLatinLetter c

/-- PDF text span: text plus font size (`line_text_and_size` input,
verify-no-heading-hyphenation.py lines 70-83). -/
structure Span where
  txt : String
  size : ℚ

/-- Concatenated text of a line's spans. -/
def lineText (spans : List Span) : String :=
  spans.foldl (fun acc s => acc ++ s.txt) ""

/-- Maximal span font size of a line, starting from 0. -/
def lineMaxSize (spans : List Span) : ℚ :=
  spans.foldl (fun acc s => max acc s.size) 0

/-- Decision for one adjacent line pair of a block
(verify-no-heading-hyphenation.py lines 122-139): skip unless both lines
reach the heading size threshold, then flag iff line one ends with a
hyphen and line two starts with a letter. -/
def headingPairFlag (l1 l2 : List Span) (threshold : ℚ) : Bool :=
  if lineMaxSize l1 < threshold ∨ lineMaxSize l2 < threshold then false
  else if ¬ endsWithHyphen (lineText l1) then false
  else if ¬ startsLetter (lineText l2) then false
  else true

/-- Adjacent pairs of a list, the iteration space of the per-block loop. -/
def adjPairs {α : Type} : List α → List (α × α)
  | a :: b :: rest => (a, b) :: adjPairs (b :: rest)
  | _ => []

/-- Violations collected for one content block
(verify-no-heading-hyphenation.py lines 118-139). -/
def headingBlockViolations (lines : List (List Span)) (threshold : ℚ) :
    List (String × String) :=
  if lines.length < 2 then []
  else (adjPairs lines).filterMap fun p =>
    if headingPairFlag p.1 p.2 threshold then
      some ((lineText p.1).trim, (lineText p.2).trim)
    else none

/-- C8: for an adjacent line pair whose two lines both have maximal font
size at least `body_size + delta`, the Heading-Hyphenation gate flags the
pair exactly when line one ends with a hyphen and line two begins with a
letter — no linguistic validity enters the decision. -/
theorem c8_heading_hyphenation (l1 l2 : List Span) (bodySize delta : ℚ)
    (h1 : lineMaxSize l1 ≥ bodySize + delta) (h2 : lineMaxSize l2 ≥ bodySize + delta) :
    headingPairFlag l1 l2 (bodySize + delta) =
      (endsWithHyphen (lineText l1) && startsLetter (lineText l2)) := by
  unfold headingPairFlag
  rw [if_neg (by rintro (hc | hc); exacts [absurd hc (not_lt.mpr h1), absurd hc (not_lt.mpr h2)])]
  by_cases he : endsWithHyphen (lineText l1) <;>
    by_cases hs : startsLetter (lineText l2) <;>
      simp [he, hs]

/-- C8 witness: a 14pt two-line pair with body size 10 and delta 1.5,
broken as "Naslagw-" / "erken", is flagged. -/
theorem c8_heading_hyphenation_witness :
    lineMaxSize [(⟨"Naslagw-", 14⟩ : Span)] ≥ 10 + 1.5 ∧
    headingPairFlag [(⟨"Naslagw-", 14⟩ : Span)] [(⟨"erken", 14⟩ : Span)] (10 + 1.5) = true := by
  have h1 : lineMaxSize [(⟨"Naslagw-", 14⟩ : Span)] ≥ 10 + 1.5 := by
    norm_num [lineMaxSize, List.foldl_cons, List.foldl_nil, max_def]
  have h2 : lineMaxSize [(⟨"erken", 14⟩ : Span)] ≥ 10 + 1.5 := by
    norm_num [lineMaxSize, List.foldl_cons, List.foldl_nil, max_def]
  refine ⟨h1, ?_⟩
  rw [c8_heading_hyphenation _ _ 10 1.5 h1 h2]
  rfl

/-! ### Justification-Gap gate (verify-justify-gaps.py lines 99-202) -/

/-- Word row of PyMuPDF `get_text("words")`: bounding box and token text. -/
structure Word where
  x0 : ℚ
  y0 : ℚ
  x1 : ℚ
  y1 : ℚ
  txt : String

/-- Marker-token test `is_marker_token` (verify-justify-gaps.py lines
99-106): bullet or dash glyphs, or a bare digit string. -/
def isMarkerToken (t : String) : Bool :=
  let tt := t.trim
  if tt = "•" ∨ tt = "-" ∨ tt = "–" ∨ tt = "—" then true
  else decide (tt ≠ "") && tt.all Char.isDigit

/-- Stable sort of a line's words by `x0` (`sorted(ws, key=lambda r: r[0])`,
verify-justify-gaps.py line 172). -/
def wordsByX (ws : List Word) : List Word :=
  ws.mergeSort fun a b => decide (a.x0 ≤ b.x0)

/-- Horizontal span of the sorted line, `ws[-1][2] - ws[0][0]`
(verify-justify-gaps.py line 176). -/
def lineSpanOf (ws : List Word) : ℚ :=
  match wordsByX ws with
  | [] => 0
  | w :: rest => (rest.getLastD w).x1 - w.x0

/-- Span ratio with the Python truthiness guard on `col_w`
(verify-justify-gaps.py line 177). -/
def spanFracOf (ws : List Word) (colW : ℚ) : ℚ :=
  if colW ≠ 0 then lineSpanOf ws / colW else 0

/-- Adjacent inter-word gaps `ws[j+1][0] - ws[j][2]`. -/
def gapsOf : List Word → List ℚ
  | w1 :: w2 :: rest => (w2.x0 - w1.x1) :: gapsOf (w2 :: rest)
  | _ => []

/-- Words contributing gaps: the sorted line, minus its first word when
that word is a list/step marker (`start_idx`, verify-justify-gaps.py
line 182). -/
def gapSourceOf (ws : List Word) : List Word :=
  match wordsByX ws with
  | [] => []
  | w :: tail => if isMarkerToken w.txt then tail else w :: tail

/-- Per-line flag of the Justification-Gap gate (verify-justify-gaps.py
lines 168-202): skip short lines and lines spanning less than
`min_span_ratio` of the column; otherwise flag iff the largest positive
adjacent gap exceeds `max_gap_pt`. -/
def justifyLineFlag (ws : List Word) (colW minSpanFrac maxGapPt : ℚ) : Bool :=
  if ws.length < 2 then false
  else if spanFracOf ws colW < minSpanFrac then false
  else
    match (gapsOf (gapSourceOf ws)).filter fun g => decide (g > 0) with
    | [] => false
    | g :: gs => decide (gs.foldl max g > maxGapPt)

/-- C9: a line whose horizontal span covers less than `min_span_ratio` of
the column width is never flagged by the Justification-Gap gate, whatever
its inter-word gaps and whatever `max_gap_pt` is. -/
theorem c9_justify_short_span (ws : List Word) (colW minSpanFrac maxGapPt : ℚ)
    (hspan : spanFracOf ws colW < minSpanFrac) :
    justifyLineFlag ws colW minSpanFrac maxGapPt = false := by
  unfold justifyLineFlag
  by_cases hlen : ws.length < 2
  · rw [if_pos hlen]
  · rw [if_neg hlen, if_pos hspan]

/-- C9 witness: a two-word line spanning 100pt of a 260pt column
(span ratio below 0.85) is not flagged even with a huge 20pt gap. -/
theorem c9_justify_short_span_witness :
    spanFracOf [(⟨0, 0, 40, 10, "ab"⟩ : Word), (⟨60, 0, 100, 10, "cd"⟩ : Word)] 260 < 0.85 ∧
    justifyLineFlag [(⟨0, 0, 40, 10, "ab"⟩ : Word), (⟨60, 0, 100, 10, "cd"⟩ : Word)] 260 0.85 18 = false := by
  have hspan : spanFracOf [(⟨0, 0, 40, 10, "ab"⟩ : Word), (⟨60, 0, 100, 10, "cd"⟩ : Word)] 260 < 0.85 := by
    norm_num [spanFracOf, lineSpanOf, wordsByX, List.mergeSort, List.getLastD]
  exact ⟨hspan, c9_justify_short_span _ _ _ 18 hspan⟩

/-! ### Layout Configuration Loader: the two `parse_css_vars` variants (C3)

Both parsers are embedded at the level of Python's `re` semantics,
specialised to the concrete patterns that appear in the sources.  Python's
`\s` is modelled by the ASCII whitespace set `isPySpace`; braces in string
literals are written with `\x7b`/`\x7d` escapes. -/

/-- Match a literal character sequence at the head of the input, returning
the remaining characters. -/
def dropLit : List Char → List Char → Option (List Char)
  | [], l => some l
  | _ :: _, [] => none
  | p :: ps, c :: cs => if c = p then dropLit ps cs else none

/-- Character class `[a-zA-Z0-9_-]` of the variable-name group. -/
def isVarChar (c : Char) : Bool :=
  ('a' ≤ c ∧ c ≤ 'z') ∨ ('A' ≤ c ∧ c ≤ 'Z') ∨ ('0' ≤ c ∧ c ≤ '9') ∨ c = '_' ∨ c = '-'

/-- Python `str.strip()` on a character list (ASCII whitespace). -/
def pyStrip (l : List Char) : List Char :=
  ((l.dropWhile isPySpace).reverse.dropWhile isPySpace).reverse

/-- Python `str.splitlines()` on a character list, recognising `\n`,
`\r\n` and `\r`; a trailing terminator produces no empty final line. -/
def splitLines : List Char → List Char → List (List Char)
  | [], acc => if acc.isEmpty then [] else [acc.reverse]
  | '\n' :: cs, acc => acc.reverse :: splitLines cs []
  | '\r' :: '\n' :: cs, acc => acc.reverse :: splitLines cs []
  | '\r' :: cs, acc => acc.reverse :: splitLines cs []
  | c :: cs, acc => splitLines cs (c :: acc)

/-- Python dict insertion: overwrite an existing key in place, else append. -/
def insertVar (out : List (String × String)) (kv : String × String) :
    List (String × String) :=
  if out.any fun p => p.1 = kv.1 then
    out.map fun p => if p.1 = kv.1 then kv else p
  else out ++ [kv]

/-- Lazy capture `([\s\S]*?)\}`: the characters strictly before the first
closing brace, failing when no closing brace follows. -/
def captureToBrace : List Char → Option (List Char)
  | [] => none
  | c :: cs => if c = '\x7d' then some [] else (captureToBrace cs).map (c :: ·)

/-- Attempted match of `:root\s*\{([\s\S]*?)\}` at the current position
(the regex of parse_css_vars in verify-page-fill.py line 82). -/
def tryRootAt (l : List Char) : Option (List Char) :=
  (dropLit (":root".toList) l).bind fun l1 =>
    (dropLit ['\x7b'] (l1.dropWhile isPySpace)).bind captureToBrace

/-- `re.search` scan for the root block: leftmost match wins. -/
def findRoot : List Char → Option (List Char)
  | [] => none
  | c :: cs =>
    match tryRootAt (c :: cs) with
    | some inner => some inner
    | none => findRoot cs

/-- `re.match` of `\s*(--[a-zA-Z0-9_-]+)\s*:\s*([^;]+);` against one line
(verify-page-fill.py line 88), returning the stripped name and value. -/
def matchVarDecl (line : List Char) : Option (String × String) :=
  (dropLit ['-', '-'] (line.dropWhile isPySpace)).bind fun l2 =>
    let name := l2.takeWhile isVarChar
    let l3 := l2.dropWhile isVarChar
    if name.isEmpty then none
    else
      (dropLit [':'] (l3.dropWhile isPySpace)).bind fun l5 =>
        let l6 := l5.dropWhile isPySpace
        let v := l6.takeWhile fun c => ¬ c = ';'
        if v.isEmpty then none
        else
          (dropLit [';'] (l6.dropWhile fun c => ¬ c = ';')).map fun _ =>
            (String.mk (pyStrip ('-' :: '-' :: name)), String.mk (pyStrip v))

/-- `parse_css_vars` of verify-page-fill.py (lines 75-92): `none` models a
missing tokens file; otherwise find the root block and collect the
matching declarations line by line. -/
def parse_css_vars_pf : Option String → List (String × String)
  | none => []
  | some css =>
    match findRoot css.toList with
    | none => []
    | some inner =>
      (splitLines inner []).foldl
        (fun out line =>
          match matchVarDecl line with
          | none => out
          | some kv => insertVar out kv) []

/-- Lazy capture of the doubled-backslash pattern `([\\s\\S]*?)\\}`: the
character class is literally backslash, `s`, `S`, and the terminator is a
literal backslash followed by a closing brace. -/
def captureEscToBrace : List Char → Option (List Char)
  | '\\' :: '\x7d' :: _ => some []
  | c :: cs =>
    if c = '\\' ∨ c = 's' ∨ c = 'S' then (captureEscToBrace cs).map (c :: ·) else none
  | [] => none

/-- Attempted match of the raw-string pattern `:root\\s*\\{([\\s\\S]*?)\\}`
of verify-justify-gaps.py line 44: after `:root` it demands a literal
backslash, a run of `s`, another literal backslash and the brace. -/
def tryRootAtEsc (l : List Char) : Option (List Char) :=
  (dropLit (":root".toList) l).bind fun l1 =>
    (dropLit ['\\'] l1).bind fun l2 =>
      (dropLit ['\\'] (l2.dropWhile (· = 's'))).bind fun l3 =>
        (dropLit ['\x7b'] l3).bind captureEscToBrace

/-- `re.search` scan for the doubled-backslash root pattern. -/
def findRootEsc : List Char → Option (List Char)
  | [] => none
  | c :: cs =>
    match tryRootAtEsc (c :: cs) with
    | some inner => some inner
    | none => findRootEsc cs

/-- `re.match` of the raw-string pattern
`\\s*(--[a-zA-Z0-9_-]+)\\s*:\\s*([^;]+);` of verify-justify-gaps.py
line 50: the line must literally start with a backslash. -/
def matchVarDeclEsc (line : List Char) : Option (String × String) :=
  (dropLit ['\\'] line).bind fun l0 =>
    (dropLit ['-', '-'] (l0.dropWhile (· = 's'))).bind fun l2 =>
      let name := l2.takeWhile isVarChar
      let l3 := l2.dropWhile isVarChar
      if name.isEmpty then none
      else
        (dropLit ['\\'] l3).bind fun l4 =>
          (dropLit [':'] (l4.dropWhile (· = 's'))).bind fun l5 =>
            (dropLit ['\\'] l5).bind fun l6 =>
              let l7 := l6.dropWhile (· = 's')
              let v := l7.takeWhile fun c => ¬ c = ';'
              if v.isEmpty then none
              else
                (dropLit [';'] (l7.dropWhile fun c => ¬ c = ';')).map fun _ =>
                  (String.mk (pyStrip ('-' :: '-' :: name)), String.mk (pyStrip v))

/-- `parse_css_vars` of verify-justify-gaps.py (lines 40-53), whose raw
strings contain doubled backslashes (the same pattern appears in
verify-box-justify-gaps.py lines 43-56). -/
def parse_css_vars_jg : Option String → List (String × String)
  | none => []
  | some css =>
    match findRootEsc css.toList with
    | none => []
    | some inner =>
      (splitLines inner []).foldl
        (fun out line =>
          match matchVarDeclEsc line with
          | none => out
          | some kv => insertVar out kv) []

/-- A well-formed tokens file with a single declaration. -/
def cssExampleTokens : String := ":root \x7b\n  --margin-top: 20mm;\n\x7d\n"

/-- C3: on a well-formed `:root` block the Page-Fill parser returns the
declared mapping, while the Justification-Gap parser returns the empty
mapping — its doubled-backslash regex demands literal backslash characters
that a tokens file does not contain — so the two parsers disagree and the
latter is never non-empty on such a file. -/
theorem c3_parser_divergence :
    parse_css_vars_pf (some cssExampleTokens) = [("--margin-top", "20mm")] ∧
    parse_css_vars_jg (some cssExampleTokens) = [] ∧
    parse_css_vars_pf (some cssExampleTokens) ≠ parse_css_vars_jg (some cssExampleTokens) := by
  refine ⟨by rfl, by rfl, ?_⟩
  intro h
  simp only [show parse_css_vars_pf (some cssExampleTokens) = [("--margin-top", "20mm")]
    from rfl] at h
  simp only [show parse_css_vars_jg (some cssExampleTokens) = [] from rfl] at h
  cases h

/-! ### Exit codes and violation sampling of the reporting layer (C10) -/

/-- Reporting outcome of verify-page-fill.py as `(exit code, printed
samples)`: missing PDF dies with code 1 (lines 35-37, 59-60), missing
PyMuPDF with code 1 (lines 62-65), an out-of-range `--min-used` with code 1
(lines 67-68); violations exit 2 after printing `bad[:20]` samples (lines
228-238); otherwise exit 0 (lines 240-241). -/
def pageFillRun (pdfExists fitzOk minUsedValid : Bool) (violations : ℕ) : ℕ × ℕ :=
  if pdfExists = false then (1, 0)
  else if fitzOk = false then (1, 0)
  else if minUsedValid = false then (1, 0)
  else if 0 < violations then (2, min violations 20)
  else (0, 0)

/-- Reporting outcome of verify-column-balance.py: usage errors die with
code 1 (lines 31-33, 57-64); violations exit 2 after printing `bad[:30]`
samples (lines 292-306); otherwise exit 0 (lines 308-309). -/
def columnBalanceRun (pdfExists fitzOk : Bool) (violations : ℕ) : ℕ × ℕ :=
  if pdfExists = false then (1, 0)
  else if fitzOk = false then (1, 0)
  else if 0 < violations then (2, min violations 30)
  else (0, 0)

/-- Reporting outcome of verify-justify-gaps.py: its `die` helper defaults
to exit code 2 (line 31), so a missing PDF or missing PyMuPDF exits 2
(lines 78-85); violations exit 2 after printing `bad[:30]` samples (lines
204-216); otherwise exit 0. -/
def justifyGapsRun (pdfExists fitzOk : Bool) (violations : ℕ) : ℕ × ℕ :=
  if pdfExists = false then (2, 0)
  else if fitzOk = false then (2, 0)
  else if 0 < violations then (2, min violations 30)
  else (0, 0)

/-- Reporting outcome of verify-bullet-orphan-split.py: `die` defaults to
exit code 2 (line 32), used for usage errors (lines 82-89) and for the
violation report with `bad[:30]` samples (lines 206-219). -/
def bulletOrphanRun (pdfExists fitzOk : Bool) (violations : ℕ) : ℕ × ℕ :=
  if pdfExists = false then (2, 0)
  else if fitzOk = false then (2, 0)
  else if 0 < violations then (2, min violations 30)
  else (0, 0)

/-- Reporting outcome of verify-no-heading-hyphenation.py: `die` defaults
to exit code 2 (line 27), used for usage errors (lines 92-99) and for the
violation report with `bad[:30]` samples (lines 141-153). -/
def headingHyphRun (pdfExists fitzOk : Bool) (violations : ℕ) : ℕ × ℕ :=
  if pdfExists = false then (2, 0)
  else if fitzOk = false then (2, 0)
  else if 0 < violations then (2, min violations 30)
  else (0, 0)

/-- C10 counterexample: with 25 violations the Page-Fill gate prints only
20 samples, not the claimed `min(25, 30) = 25`; and on a missing PDF the
Justification-Gap gate exits 2, not the claimed 1. -/
theorem c10_counterexample :
    pageFillRun true true true 25 = (2, 20) ∧ (20 : ℕ) ≠ min 25 30 ∧
    justifyGapsRun false true 0 = (2, 0) ∧ (justifyGapsRun false true 0).1 ≠ 1 := by
  refine ⟨by decide, by decide, by decide, by decide⟩

/-- C10 amended: on an existing PDF with PyMuPDF available (and a valid
`--min-used` for Page-Fill), every gate exits 2 on violations and 0
otherwise, printing `min(violations, 30)` samples — except Page-Fill,
which prints `min(violations, 20)`; a missing PDF or missing dependency
exits 1 in Page-Fill and Column-Balance but 2 in Justification-Gap,
Bullet-Orphan-Split and Heading-Hyphenation. -/
theorem c10_amended (v : ℕ) (b : Bool) :
    pageFillRun true true true v = (if 0 < v then 2 else 0, if 0 < v then min v 20 else 0) ∧
    columnBalanceRun true true v = (if 0 < v then 2 else 0, if 0 < v then min v 30 else 0) ∧
    justifyGapsRun true true v = (if 0 < v then 2 else 0, if 0 < v then min v 30 else 0) ∧
    bulletOrphanRun true true v = (if 0 < v then 2 else 0, if 0 < v then min v 30 else 0) ∧
    headingHyphRun true true v = (if 0 < v then 2 else 0, if 0 < v then min v 30 else 0) ∧
    pageFillRun false b true v = (1, 0) ∧ pageFillRun true false true v = (1, 0) ∧
    pageFillRun true true false v = (1, 0) ∧
    columnBalanceRun false b v = (1, 0) ∧ columnBalanceRun true false v = (1, 0) ∧
    justifyGapsRun false b v = (2, 0) ∧ justifyGapsRun true false v = (2, 0) ∧
    bulletOrphanRun false b v = (2, 0) ∧ bulletOrphanRun true false v = (2, 0) ∧
    headingHyphRun false b v = (2, 0) ∧ headingHyphRun true false v = (2, 0) := by
  unfold pageFillRun columnBalanceRun justifyGapsRun bulletOrphanRun headingHyphRun
  by_cases hv : 0 < v <;> simp [hv]

end LayoutQA
